import Mathlib

/-!
Shallow embedding of `src/Sangam.py` (sales analytics dashboard).

Modelling conventions:
* The SQLite database is a `DBState`: the `datasets` registry, the
  `sales_data` record store, and the AUTOINCREMENT counter `nextId`.
* A pandas dataframe is a `Frame`: its column-name list, its rows, and the
  `dataset_id` column (a scalar, since the code assigns one value to the
  whole column).  A row carries the eight business fields; `order_date` is
  `Option Int` (day number), `none` standing for NaT, i.e. the result of
  `pd.to_datetime(..., errors="coerce")` on an unparseable value.  Numeric
  REAL fields are modelled as `Int` (exact arithmetic in place of floats).
* Connection handling is made explicit: each database operation reports
  whether `conn.close()` was reached on the path taken, mirroring the
  `try/finally` blocks (and the early `return None` in `fetch_data`, which
  skips `conn.close()`).
* `pandas.DataFrame.to_sql(..., if_exists="append")` issues
  `INSERT INTO sales_data (<frame columns>) VALUES ...` — except for a
  zero-row frame, where `SQLTable.insert` returns before building any
  statement (`nrows == 0` early return), so nothing is executed and the
  operation succeeds.  With at least one row, if some frame column is
  not a column of the `sales_data` table, sqlite raises an
  `OperationalError` (a `sqlite3.Error`), pandas rolls the transaction
  back, and the `except Error` branch reports a generic database error.
  This is modelled by the `rows.isEmpty || cols ⊆ sales_table_columns`
  test in `save_to_database`.
-/

namespace Sangam

/-- A row of the `datasets` registry table. -/
structure Dataset where
  id : Nat
  name : String
  upload_date : String
deriving Repr, DecidableEq

/-- A row of the `sales_data` table (the autoincrement `id` column is not
modelled; `order_date` is `Option Int` because the TEXT column could in
principle hold a null/NaT value). -/
structure SalesRecord where
  dataset_id : Nat
  order_date : Option Int
  sales : Int
  profit : Int
  category : String
  region : String
  sub_category : String
  quantity : Int
  discount : Int
deriving Repr, DecidableEq

/-- The persistent database state: the two tables plus the AUTOINCREMENT
counter for `datasets.id`. -/
structure DBState where
  datasets : List Dataset
  sales_data : List SalesRecord
  nextId : Nat
deriving Repr, DecidableEq

/-- One dataframe row: the eight business fields.  `order_date` is the
result of date parsing (`none` = NaT). -/
structure InRow where
  order_date : Option Int
  sales : Int
  profit : Int
  category : String
  region : String
  sub_category : String
  quantity : Int
  discount : Int
deriving Repr, DecidableEq

/-- A pandas dataframe: column names, rows, and the scalar value of the
`dataset_id` column when present (`dataframe["dataset_id"] = id` assigns
one value to the whole column). -/
structure Frame where
  cols : List String
  rows : List InRow
  datasetIdCol : Option Nat
deriving Repr, DecidableEq

/-- `.str.strip().str.lower().str.replace(" ", "_")` applied to one
column name, at character level: strip whitespace from both ends,
lowercase every character, replace every space by an underscore (the
replace pattern is the single character `" "`, so it is a character map). -/
def normalizeName (s : String) : String :=
  String.mk ((((s.data.dropWhile Char.isWhitespace).reverse.dropWhile
      Char.isWhitespace).reverse.map Char.toLower).map
    (fun c => if c = ' ' then '_' else c))

/-- The `column_mapping` dict of `normalize_and_map_columns`. -/
def column_mapping : List (String × String) :=
  [("order_date", "order_date"),
   ("sales", "sales"),
   ("profit", "profit"),
   ("category", "category"),
   ("region", "region"),
   ("sub-category", "sub_category"),
   ("subcategory", "sub_category"),
   ("quantity", "quantity"),
   ("discount", "discount")]

/-- `dataframe.rename(columns=column_mapping)` applied to one column
name: mapped if it is a key of the mapping, kept otherwise. -/
def mapAlias (s : String) : String :=
  match column_mapping.find? (fun p => p.1 = s) with
  | some p => p.2
  | none => s

/-- `normalize_and_map_columns`: normalize every column name, then apply
the alias mapping. -/
def normalize_and_map_columns (cols : List String) : List String :=
  cols.map (fun c => mapAlias (normalizeName c))

/-- The `required_columns` list of the upload handler. -/
def required_columns : List String :=
  ["order_date", "sales", "profit", "category", "region",
   "sub_category", "quantity", "discount"]

/-- `validate_columns`: the list of required columns missing from the
dataframe, and whether validation passes (it passes iff none is missing). -/
def missing_columns (cols : List String) : List String :=
  required_columns.filter (fun c => !(cols.contains c))

/-- `validate_columns` returns `True` iff no required column is missing. -/
def validate_columns (cols : List String) : Bool :=
  (missing_columns cols).isEmpty

/-- The columns of the `sales_data` table created by `setup_database`. -/
def sales_table_columns : List String :=
  ["id", "dataset_id", "order_date", "sales", "profit", "category",
   "region", "sub_category", "quantity", "discount"]

/-- How `save_to_database` ends. -/
inductive SaveResult where
  | success
  | duplicateName
  | dbError
deriving Repr, DecidableEq

/-- Result of `save_to_database`: the database state after the call, the
reported outcome, the caller's dataframe after the call (the function
mutates it in place), and whether `conn.close()` ran. -/
structure SaveOutcome where
  state : DBState
  result : SaveResult
  frame : Frame
  connClosed : Bool
deriving Repr, DecidableEq

/-- Stamp a dataframe row with a dataset id, yielding the `sales_data`
row that the bulk append writes. -/
def toRecord (id : Nat) (r : InRow) : SalesRecord :=
  { dataset_id := id
    order_date := r.order_date
    sales := r.sales
    profit := r.profit
    category := r.category
    region := r.region
    sub_category := r.sub_category
    quantity := r.quantity
    discount := r.discount }

/-- `save_to_database(dataset_name, dataframe)`.  `now` is the
`datetime.now()` timestamp string.

* If the name is already registered, the `INSERT INTO datasets` raises
  `IntegrityError` before the dataframe is touched: nothing is written,
  the duplicate-name error is reported, `finally` closes the connection.
* Otherwise the insert succeeds (uncommitted), the new id is read back,
  `dataframe["dataset_id"] = dataset_id` mutates the caller's frame, and
  `to_sql` appends.  For a zero-row frame `to_sql` issues no INSERT at
  all (pandas returns at `nrows == 0`), so the append is a no-op and the
  commit succeeds.  With at least one row, if every frame column exists
  in the `sales_data` table the append and the commit succeed; otherwise
  sqlite raises, pandas rolls back (undoing the registry insert too),
  and a generic database error is reported.  `finally` closes the
  connection on every path. -/
def save_to_database (st : DBState) (dataset_name : String) (f : Frame)
    (now : String) : SaveOutcome :=
  if st.datasets.any (fun d => d.name = dataset_name) then
    { state := st, result := .duplicateName, frame := f, connClosed := true }
  else
    let dataset_id := st.nextId
    let f2 : Frame := { f with datasetIdCol := some dataset_id }
    if f.rows.isEmpty || f.cols.all (fun c => sales_table_columns.contains c) then
      { state :=
          { datasets := st.datasets ++ [⟨dataset_id, dataset_name, now⟩]
            sales_data := st.sales_data ++ f.rows.map (toRecord dataset_id)
            nextId := dataset_id + 1 }
        result := .success
        frame := f2
        connClosed := true }
    else
      { state := st, result := .dbError, frame := f2, connClosed := true }

/-- `fetch_dataset_names()`: all registered names, in registry order; the
connection is closed on the single path through the function. -/
def fetch_dataset_names (st : DBState) : List String × Bool :=
  (st.datasets.map (fun d => d.name), true)

/-- Result of `fetch_data`: the returned value and whether `conn.close()`
ran on the path taken. -/
structure FetchOutcome where
  result : Option (List SalesRecord)
  connClosed : Bool
deriving Repr, DecidableEq

/-- `fetch_data(dataset_name)`: resolve the name to the first matching
registry id (`fetchone`); if there is none, `return None` fires *before*
`conn.close()`, leaking the connection; otherwise return every
`sales_data` row with that `dataset_id` and close the connection. -/
def fetch_data (st : DBState) (dataset_name : String) : FetchOutcome :=
  match st.datasets.find? (fun d => d.name = dataset_name) with
  | none => { result := none, connClosed := false }
  | some d =>
      { result := some (st.sales_data.filter (fun r => r.dataset_id = d.id))
        connClosed := true }

/-- How the upload handler ends. -/
inductive UploadResult where
  | missingColumns (missing : List String)
  | saved (r : SaveResult)
deriving Repr, DecidableEq

/-- Result of the upload handler. -/
structure UploadOutcome where
  state : DBState
  result : UploadResult
  frame : Frame
deriving Repr, DecidableEq

/-- The upload-button handler (lines 148-166): normalize and map the
column names, validate the required columns (reporting the missing ones
and stopping if any), coerce `order_date` and drop the rows where parsing
failed (`dropna`), then `save_to_database`. -/
def upload_handler (st : DBState) (dataset_name : String) (f : Frame)
    (now : String) : UploadOutcome :=
  let f1 : Frame := { f with cols := normalize_and_map_columns f.cols }
  if validate_columns f1.cols then
    let f2 : Frame :=
      { f1 with rows := f1.rows.filter (fun r => r.order_date.isSome) }
    let out := save_to_database st dataset_name f2 now
    { state := out.state, result := .saved out.result, frame := out.frame }
  else
    { state := st, result := .missingColumns (missing_columns f1.cols)
      frame := f1 }

/-- The date-range filter (line 182):
`df[(df["order_date"] >= start_date) & (df["order_date"] <= end_date)]`.
A NaT date compares false on both sides. -/
def df_filtered (rows : List SalesRecord) (start_date end_date : Int) :
    List SalesRecord :=
  rows.filter (fun r =>
    match r.order_date with
    | some d => decide (start_date ≤ d) && decide (d ≤ end_date)
    | none => false)

/-- `df.groupby(key)["sales"].sum().reset_index()`: one pair per distinct
key value occurring in the rows (groupby sorts the keys), each paired with
the sum of `sales` over that group. -/
def groupSumSales (key : SalesRecord → String) (rows : List SalesRecord) :
    List (String × Int) :=
  (((rows.map key).dedup).mergeSort (fun a b => decide (a ≤ b))).map
    (fun k => (k, ((rows.filter (fun r => key r = k)).map
      (fun r => r.sales)).sum))

/-- `category_sales` (line 186). -/
def category_sales (rows : List SalesRecord) : List (String × Int) :=
  groupSumSales (fun r => r.category) rows

/-- `region_sales` (line 187). -/
def region_sales (rows : List SalesRecord) : List (String × Int) :=
  groupSumSales (fun r => r.region) rows

/-- Well-formed database state: every registered id and every stored
record's `dataset_id` is below the AUTOINCREMENT counter. -/
def WF (st : DBState) : Prop :=
  (∀ d ∈ st.datasets, d.id < st.nextId) ∧
  (∀ r ∈ st.sales_data, r.dataset_id < st.nextId)

/-- A freshly set-up database: empty tables, AUTOINCREMENT at 1. -/
def emptyDB : DBState := { datasets := [], sales_data := [], nextId := 1 }

/-- A sample registry row. -/
def exDataset : Dataset :=
  { id := 1, name := "alpha", upload_date := "2024-01-01 00:00:00" }

/-- A sample stored record belonging to `exDataset`. -/
def exStored : SalesRecord :=
  { dataset_id := 1, order_date := some 10, sales := 3, profit := 1,
    category := "B", region := "South", sub_category := "T",
    quantity := 2, discount := 0 }

/-- A database holding one dataset named `"alpha"` with one record. -/
def oneDB : DBState :=
  { datasets := [exDataset], sales_data := [exStored], nextId := 2 }

/-- A sample dataframe row with a parseable date. -/
def exRow : InRow :=
  { order_date := some 0, sales := 10, profit := 2, category := "A",
    region := "North", sub_category := "S", quantity := 1, discount := 0 }

/-- A sample dataframe row whose date failed to parse (NaT). -/
def exRowBadDate : InRow := { exRow with order_date := none }

/-- A one-row frame with exactly the eight canonical columns. -/
def exFrame : Frame :=
  { cols := required_columns, rows := [exRow], datasetIdCol := none }

/-- `exFrame` plus an extra column `"notes"` that is not a column of the
`sales_data` table. -/
def exFrameExtra : Frame :=
  { cols := required_columns ++ ["notes"], rows := [exRow],
    datasetIdCol := none }

/-- A zero-row frame carrying the same foreign extra column `"notes"`. -/
def exFrameExtraEmpty : Frame :=
  { cols := required_columns ++ ["notes"], rows := [],
    datasetIdCol := none }

/-- A frame with raw spreadsheet headers but no Discount column. -/
def exFrameNoDiscount : Frame :=
  { cols := ["Order Date", "Sales", "Profit", "Category", "Region",
             "Sub-Category", "Quantity"],
    rows := [], datasetIdCol := none }

/-- A frame with one parseable-date row and one NaT row. -/
def exFrameMixed : Frame :=
  { cols := required_columns, rows := [exRow, exRowBadDate],
    datasetIdCol := none }

/-- Dropping the NaT rows keeps `length - (number of NaT rows)` rows. -/
theorem length_filter_isSome_rows (l : List InRow) :
    (l.filter (fun r => r.order_date.isSome)).length
      = l.length - (l.filter (fun r => r.order_date.isNone)).length := by
  induction l with
  | nil => rfl
  | cons a t ih =>
      have hle : (t.filter (fun r => r.order_date.isNone)).length ≤ t.length :=
        List.length_filter_le _ _
      cases h : a.order_date with
      | none => simp [List.filter_cons, h, ih]
      | some v => simp [List.filter_cons, h, ih]; omega

/-- Membership characterization of the group-and-sum operation. -/
theorem groupSumSales_mem_iff (key : SalesRecord → String)
    (rows : List SalesRecord) (c : String) (t : Int) :
    (c, t) ∈ groupSumSales key rows ↔
      (∃ r ∈ rows, key r = c) ∧
      t = ((rows.filter (fun r => key r = c)).map (fun r => r.sales)).sum := by
  unfold groupSumSales
  rw [List.mem_map]
  constructor
  · rintro ⟨k, hk, hpair⟩
    rw [List.mem_mergeSort, List.mem_dedup, List.mem_map] at hk
    obtain ⟨r, hr, hkey⟩ := hk
    have hc : k = c := congrArg Prod.fst hpair
    have ht := congrArg Prod.snd hpair
    subst hc
    exact ⟨⟨r, hr, hkey⟩, ht.symm⟩
  · rintro ⟨⟨r, hr, hkey⟩, ht⟩
    refine ⟨c, ?_, ?_⟩
    · rw [List.mem_mergeSort, List.mem_dedup, List.mem_map]
      exact ⟨r, hr, hkey⟩
    · rw [ht]

/-- The group-and-sum operation produces no duplicate keys. -/
theorem groupSumSales_keys_nodup (key : SalesRecord → String)
    (rows : List SalesRecord) :
    ((groupSumSales key rows).map Prod.fst).Nodup := by
  unfold groupSumSales
  rw [List.map_map]
  have h : ((rows.map key).dedup.mergeSort
      (fun a b => decide (a ≤ b))).Nodup :=
    (List.nodup_dedup _).perm (List.mergeSort_perm _ _).symm
  have heq : (Prod.fst ∘ fun k : String =>
      (k, ((rows.filter (fun r => key r = k)).map (fun r => r.sales)).sum))
      = fun k : String => k := rfl
  rw [heq, List.map_id']
  exact h

/-- Claim C1: if the dataset name is already present in the registry,
`save_to_database` leaves the registry and the record store exactly
unchanged and reports the duplicate-name error. -/
theorem c1_duplicate_name_no_write (st : DBState) (name : String) (f : Frame)
    (now : String) (h : ∃ d ∈ st.datasets, d.name = name) :
    (save_to_database st name f now).state.datasets = st.datasets ∧
    (save_to_database st name f now).state.sales_data = st.sales_data ∧
    (save_to_database st name f now).result = .duplicateName := by
  obtain ⟨d, hd, hn⟩ := h
  have hany : st.datasets.any (fun d => d.name = name) = true := by
    rw [List.any_eq_true]
    exact ⟨d, hd, by simp [hn]⟩
  simp [save_to_database, hany]

/-- Witness for C1 at a concrete duplicate upload. -/
theorem c1_duplicate_name_no_write_witness :
    (save_to_database oneDB "alpha" exFrame "t").state.datasets
      = oneDB.datasets ∧
    (save_to_database oneDB "alpha" exFrame "t").state.sales_data
      = oneDB.sales_data ∧
    (save_to_database oneDB "alpha" exFrame "t").result = .duplicateName :=
  c1_duplicate_name_no_write oneDB "alpha" exFrame "t"
    ⟨exDataset, by decide, by decide⟩

/-- Claim C4: the date filter keeps exactly the rows whose date `d`
satisfies `start_date ≤ d ∧ d ≤ end_date`, inclusive on both boundaries
(so rows dated exactly at either boundary are kept). -/
theorem c4_date_filter_inclusive (rows : List SalesRecord)
    (start_date end_date : Int) (r : SalesRecord) :
    r ∈ df_filtered rows start_date end_date ↔
      r ∈ rows ∧ ∃ d, r.order_date = some d ∧
        start_date ≤ d ∧ d ≤ end_date := by
  simp only [df_filtered, List.mem_filter]
  cases h : r.order_date with
  | none => simp [h]
  | some d => simp [h]

/-- Claim C5: the category aggregation holds one pair per category value
occurring in the filtered rows, totalling that category's sales, and
likewise for regions; absent groups are absent (a key appears iff some
row carries it) and no key is duplicated. -/
theorem c5_aggregation_by_category_and_region (rows : List SalesRecord) :
    (∀ c t, ((c, t) ∈ category_sales rows ↔
        (∃ r ∈ rows, r.category = c) ∧
        t = ((rows.filter (fun r => r.category = c)).map
          (fun r => r.sales)).sum)) ∧
    ((category_sales rows).map Prod.fst).Nodup ∧
    (∀ g t, ((g, t) ∈ region_sales rows ↔
        (∃ r ∈ rows, r.region = g) ∧
        t = ((rows.filter (fun r => r.region = g)).map
          (fun r => r.sales)).sum)) ∧
    ((region_sales rows).map Prod.fst).Nodup :=
  ⟨fun c t => groupSumSales_mem_iff (fun r => r.category) rows c t,
   groupSumSales_keys_nodup (fun r => r.category) rows,
   fun g t => groupSumSales_mem_iff (fun r => r.region) rows g t,
   groupSumSales_keys_nodup (fun r => r.region) rows⟩

/-- Claim C2 counterexample: extra columns are not ignored at the
persistence stage.  With the extra column `"notes"` the append raises and
the upload reports a database error (no records written); the same frame
without the extra column succeeds — so the presence of an extra column
changes the outcome of the upload. -/
theorem c2_extra_columns_counterexample :
    (save_to_database emptyDB "fresh" exFrameExtra "t").result = .dbError ∧
    (save_to_database emptyDB "fresh" exFrameExtra "t").result ≠ .success ∧
    (save_to_database emptyDB "fresh" exFrameExtra "t").state = emptyDB ∧
    (save_to_database emptyDB "fresh" exFrame "t").result = .success := by
  decide

/-- Claim C2 (amended): extra columns are not ignored at the persistence
stage.  With a fresh name: if every frame column is a column of the
`sales_data` table, persistence succeeds and the persisted rows carry
only the fixed schema fields; a zero-row frame also succeeds whatever
its columns, because `to_sql` issues no INSERT for it (and it writes no
records); but a frame with at least one row and an extra column outside
the table's columns makes the bulk append fail with a generic database
error and nothing is written. -/
theorem c2_extra_columns_amended (st : DBState) (name : String) (f : Frame)
    (now : String) (hfresh : ∀ d ∈ st.datasets, d.name ≠ name) :
    ((∀ c ∈ f.cols, c ∈ sales_table_columns) →
       (save_to_database st name f now).result = .success ∧
       (save_to_database st name f now).state.sales_data
         = st.sales_data ++ f.rows.map (toRecord st.nextId)) ∧
    (f.rows = [] →
       (save_to_database st name f now).result = .success ∧
       (save_to_database st name f now).state.sales_data
         = st.sales_data) ∧
    (f.rows ≠ [] → (∃ c ∈ f.cols, c ∉ sales_table_columns) →
       (save_to_database st name f now).result = .dbError ∧
       (save_to_database st name f now).state = st) := by
  have hany : st.datasets.any (fun d => d.name = name) = false := by
    rw [List.any_eq_false]
    intro d hd
    simp [hfresh d hd]
  refine ⟨?_, ?_, ?_⟩
  · intro hcols
    simp [save_to_database, hany]
    rw [if_pos (Or.inr hcols)]
    exact ⟨rfl, rfl⟩
  · intro hempty
    simp [save_to_database, hany]
    rw [if_pos (Or.inl hempty), hempty]
    exact ⟨rfl, by simp⟩
  · intro hne
    rintro ⟨c, hc, hcnot⟩
    simp [save_to_database, hany]
    rw [if_neg ?_]
    · exact ⟨rfl, rfl⟩
    · rintro (h | hP)
      · exact hne h
      · exact hcnot (hP c hc)

/-- Witness for the amended C2 at three concrete uploads: no extra
column, a zero-row frame with a foreign extra column, and a one-row
frame with a foreign extra column. -/
theorem c2_extra_columns_amended_witness :
    ((save_to_database emptyDB "fresh" exFrame "t").result = .success ∧
     (save_to_database emptyDB "fresh" exFrame "t").state.sales_data
       = emptyDB.sales_data ++ exFrame.rows.map (toRecord emptyDB.nextId)) ∧
    ((save_to_database emptyDB "fresh" exFrameExtraEmpty "t").result
        = .success ∧
     (save_to_database emptyDB "fresh" exFrameExtraEmpty "t").state.sales_data
        = emptyDB.sales_data) ∧
    ((save_to_database emptyDB "fresh" exFrameExtra "t").result = .dbError ∧
     (save_to_database emptyDB "fresh" exFrameExtra "t").state = emptyDB) :=
  ⟨(c2_extra_columns_amended emptyDB "fresh" exFrame "t" (by decide)).1
     (by decide),
   (c2_extra_columns_amended emptyDB "fresh" exFrameExtraEmpty "t"
     (by decide)).2.1 rfl,
   (c2_extra_columns_amended emptyDB "fresh" exFrameExtra "t" (by decide)).2.2
     (by decide) ⟨"notes", by decide, by decide⟩⟩

/-- Claim C6: a frame that, after normalization and alias mapping, lacks
a required canonical column is rejected with exactly the list of missing
names, and the database state is unchanged. -/
theorem c6_missing_columns_rejected (st : DBState) (name now : String)
    (f : Frame)
    (h : ∃ c ∈ required_columns, c ∉ normalize_and_map_columns f.cols) :
    (upload_handler st name f now).state = st ∧
    (upload_handler st name f now).result =
      .missingColumns (missing_columns (normalize_and_map_columns f.cols)) ∧
    missing_columns (normalize_and_map_columns f.cols) ≠ [] := by
  obtain ⟨c, hc, hnot⟩ := h
  have hmem : c ∈ missing_columns (normalize_and_map_columns f.cols) := by
    rw [missing_columns, List.mem_filter]
    exact ⟨hc, by simpa using hnot⟩
  have hne : missing_columns (normalize_and_map_columns f.cols) ≠ [] := by
    intro hnil
    rw [hnil] at hmem
    exact List.not_mem_nil _ hmem
  have hval : validate_columns (normalize_and_map_columns f.cols) = false := by
    rcases hm : missing_columns (normalize_and_map_columns f.cols) with
      _ | ⟨a, tl⟩
    · exact absurd hm hne
    · simp [validate_columns, hm]
  refine ⟨?_, ?_, hne⟩ <;> simp [upload_handler, hval]

/-- Witness for C6: a frame with raw headers but no Discount column is
rejected, reporting exactly `["discount"]`. -/
theorem c6_missing_columns_rejected_witness :
    (upload_handler emptyDB "fresh" exFrameNoDiscount "t").state = emptyDB ∧
    (upload_handler emptyDB "fresh" exFrameNoDiscount "t").result =
      .missingColumns
        (missing_columns (normalize_and_map_columns exFrameNoDiscount.cols)) ∧
    missing_columns (normalize_and_map_columns exFrameNoDiscount.cols) ≠ [] :=
  c6_missing_columns_rejected emptyDB "fresh" "t" exFrameNoDiscount
    ⟨"discount", by decide, by decide⟩

/-- Claim C8 (code bug): `save_to_database` closes its connection on every
path (`try/finally`) and `fetch_dataset_names` on its single path, but
`fetch_data` returns early on an unknown dataset name *before*
`conn.close()`: at the concrete failing input the connection is leaked. -/
theorem c8_fetch_data_connection_leak :
    (fetch_data emptyDB "missing").result = none ∧
    (fetch_data emptyDB "missing").connClosed = false ∧
    (save_to_database emptyDB "missing" exFrame "t").connClosed = true ∧
    (save_to_database oneDB "alpha" exFrame "t").connClosed = true ∧
    (save_to_database emptyDB "missing" exFrameExtra "t").connClosed = true ∧
    (fetch_dataset_names emptyDB).2 = true ∧
    (fetch_data oneDB "alpha").connClosed = true := by
  decide

/-- Claim C10: with a fresh dataset name, `save_to_database` mutates the
caller's dataframe in place, stamping the `dataset_id` column with the
new registry id; on the duplicate-name path the insert fails first and
the caller's dataframe is returned unchanged. -/
theorem c10_frame_mutation (st : DBState) (name : String) (f : Frame)
    (now : String) :
    ((∀ d ∈ st.datasets, d.name ≠ name) →
       (save_to_database st name f now).frame
         = { f with datasetIdCol := some st.nextId }) ∧
    ((∃ d ∈ st.datasets, d.name = name) →
       (save_to_database st name f now).frame = f) := by
  constructor
  · intro hfresh
    have hany : st.datasets.any (fun d => d.name = name) = false := by
      rw [List.any_eq_false]
      intro d hd
      simp [hfresh d hd]
    simp [save_to_database, hany]
    split <;> rfl
  · rintro ⟨d, hd, hn⟩
    have hany : st.datasets.any (fun d => d.name = name) = true := by
      rw [List.any_eq_true]
      exact ⟨d, hd, by simp [hn]⟩
    simp [save_to_database, hany]

/-- The upload handler on the success path: valid columns, fresh name,
and every normalized column present in the `sales_data` table yield the
fully written state. -/
theorem upload_handler_success_eq (st : DBState) (name now : String)
    (f : Frame)
    (hreq : validate_columns (normalize_and_map_columns f.cols) = true)
    (hfresh : ∀ d ∈ st.datasets, d.name ≠ name)
    (hcols : ∀ c ∈ normalize_and_map_columns f.cols,
      c ∈ sales_table_columns) :
    upload_handler st name f now =
      { state :=
          { datasets := st.datasets ++ [⟨st.nextId, name, now⟩]
            sales_data := st.sales_data
              ++ (f.rows.filter (fun r => r.order_date.isSome)).map
                   (toRecord st.nextId)
            nextId := st.nextId + 1 }
        result := .saved .success
        frame := { cols := normalize_and_map_columns f.cols
                   rows := f.rows.filter (fun r => r.order_date.isSome)
                   datasetIdCol := some st.nextId } } := by
  have hany : st.datasets.any (fun d => d.name = name) = false := by
    rw [List.any_eq_false]
    intro d hd
    simp [hfresh d hd]
  simp [upload_handler, hreq, save_to_database, hany]
  rw [if_pos (Or.inr hcols)]
  exact ⟨rfl, rfl, rfl⟩

/-- Claim C3: uploading a frame whose eight required columns are present,
whose every row has a parseable date, under a fresh name, persists
exactly its rows, and `fetch_data` on that name returns exactly those
rows with the eight business-column values preserved. -/
theorem c3_round_trip (st : DBState) (name now : String) (f : Frame)
    (hWF : WF st)
    (hfresh : ∀ d ∈ st.datasets, d.name ≠ name)
    (hreq : validate_columns (normalize_and_map_columns f.cols) = true)
    (hcols : ∀ c ∈ normalize_and_map_columns f.cols,
      c ∈ sales_table_columns)
    (hdates : ∀ r ∈ f.rows, r.order_date.isSome) :
    (upload_handler st name f now).result = .saved .success ∧
    (upload_handler st name f now).state.sales_data.length
      = st.sales_data.length + f.rows.length ∧
    (fetch_data (upload_handler st name f now).state name).result
      = some (f.rows.map (toRecord st.nextId)) ∧
    ((f.rows.map (toRecord st.nextId)).map (fun r =>
        (r.order_date, r.sales, r.profit, r.category, r.region,
         r.sub_category, r.quantity, r.discount))
      = f.rows.map (fun r =>
        (r.order_date, r.sales, r.profit, r.category, r.region,
         r.sub_category, r.quantity, r.discount))) := by
  have hfilter : f.rows.filter (fun r => r.order_date.isSome) = f.rows :=
    List.filter_eq_self.mpr hdates
  have hup := upload_handler_success_eq st name now f hreq hfresh hcols
  rw [hfilter] at hup
  refine ⟨?_, ?_, ?_, ?_⟩
  · rw [hup]
  · rw [hup]
    simp
  · rw [hup]
    have hfindnone : st.datasets.find? (fun d => d.name = name) = none := by
      rw [List.find?_eq_none]
      intro d hd
      simp [hfresh d hd]
    have hfind : ((st.datasets ++ [(⟨st.nextId, name, now⟩ : Dataset)]).find?
        (fun d => d.name = name)) = some ⟨st.nextId, name, now⟩ := by
      rw [List.find?_append, hfindnone]
      simp [List.find?]
    simp only [fetch_data, hfind]
    have h1 : st.sales_data.filter (fun r => r.dataset_id = st.nextId)
        = [] := by
      rw [List.filter_eq_nil_iff]
      intro r hr
      have hlt := hWF.2 r hr
      simp
      omega
    have h2 : (f.rows.map (toRecord st.nextId)).filter
        (fun r => r.dataset_id = st.nextId)
        = f.rows.map (toRecord st.nextId) := by
      apply List.filter_eq_self.mpr
      intro r hr
      obtain ⟨x, hx, rfl⟩ := List.mem_map.mp hr
      simp [toRecord]
    rw [List.filter_append, h1, h2, List.nil_append]
  · rw [List.map_map]
    rfl

/-- Witness for C3 at a concrete one-row upload into a fresh database. -/
theorem c3_round_trip_witness :
    (upload_handler emptyDB "fresh" exFrame "t").result = .saved .success ∧
    (upload_handler emptyDB "fresh" exFrame "t").state.sales_data.length
      = emptyDB.sales_data.length + exFrame.rows.length ∧
    (fetch_data (upload_handler emptyDB "fresh" exFrame "t").state
        "fresh").result
      = some (exFrame.rows.map (toRecord emptyDB.nextId)) ∧
    ((exFrame.rows.map (toRecord emptyDB.nextId)).map (fun r =>
        (r.order_date, r.sales, r.profit, r.category, r.region,
         r.sub_category, r.quantity, r.discount))
      = exFrame.rows.map (fun r =>
        (r.order_date, r.sales, r.profit, r.category, r.region,
         r.sub_category, r.quantity, r.discount))) :=
  c3_round_trip emptyDB "fresh" "t" exFrame
    ⟨by simp [emptyDB], by simp [emptyDB]⟩ (by decide) (by decide)
    (by decide) (by decide)

/-- Claim C7: on an upload that passes validation and persists under a
fresh name, exactly the rows whose date failed to parse are dropped: the
store gains `input length - unparseable count` rows, and (given a store
with no null dates) no stored record holds a null date. -/
theorem c7_unparseable_dates_dropped (st : DBState) (name now : String)
    (f : Frame)
    (hreq : validate_columns (normalize_and_map_columns f.cols) = true)
    (hfresh : ∀ d ∈ st.datasets, d.name ≠ name)
    (hcols : ∀ c ∈ normalize_and_map_columns f.cols,
      c ∈ sales_table_columns)
    (hclean : ∀ r ∈ st.sales_data, r.order_date.isSome) :
    (upload_handler st name f now).state.sales_data
      = st.sales_data
        ++ (f.rows.filter (fun r => r.order_date.isSome)).map
             (toRecord st.nextId) ∧
    (upload_handler st name f now).state.sales_data.length
      = st.sales_data.length
        + (f.rows.length
            - (f.rows.filter (fun r => r.order_date.isNone)).length) ∧
    (∀ r ∈ (upload_handler st name f now).state.sales_data,
      r.order_date.isSome) := by
  have hup := upload_handler_success_eq st name now f hreq hfresh hcols
  refine ⟨?_, ?_, ?_⟩
  · rw [hup]
  · rw [hup]
    simp [length_filter_isSome_rows]
  · rw [hup]
    intro r hr
    rcases List.mem_append.mp hr with h | h
    · exact hclean r h
    · obtain ⟨x, hx, rfl⟩ := List.mem_map.mp h
      have hs := (List.mem_filter.mp hx).2
      simpa [toRecord] using hs

/-- Witness for C7: a two-row upload with one NaT row persists exactly
one record. -/
theorem c7_unparseable_dates_dropped_witness :
    (upload_handler emptyDB "fresh" exFrameMixed "t").state.sales_data
      = emptyDB.sales_data
        ++ (exFrameMixed.rows.filter (fun r => r.order_date.isSome)).map
             (toRecord emptyDB.nextId) ∧
    (upload_handler emptyDB "fresh" exFrameMixed "t").state.sales_data.length
      = emptyDB.sales_data.length
        + (exFrameMixed.rows.length
            - (exFrameMixed.rows.filter
                (fun r => r.order_date.isNone)).length) ∧
    (∀ r ∈ (upload_handler emptyDB "fresh" exFrameMixed "t").state.sales_data,
      r.order_date.isSome) :=
  c7_unparseable_dates_dropped emptyDB "fresh" "t" exFrameMixed
    (by decide) (by decide) (by decide) (by decide)

/-- Claim C9: `fetch_data` returns `None` exactly when no registry row
carries the requested name; otherwise it returns exactly the records
whose `dataset_id` equals the resolved id, and no others. -/
theorem c9_fetch_data_resolution (st : DBState) (name : String) :
    ((fetch_data st name).result = none ↔
       ∀ d ∈ st.datasets, d.name ≠ name) ∧
    (∀ d, st.datasets.find? (fun x => x.name = name) = some d →
       (fetch_data st name).result
         = some (st.sales_data.filter (fun r => r.dataset_id = d.id)) ∧
       ∀ r, (r ∈ st.sales_data.filter (fun r => r.dataset_id = d.id) ↔
         (r ∈ st.sales_data ∧ r.dataset_id = d.id))) := by
  constructor
  · cases hf : st.datasets.find? (fun d => d.name = name) with
    | none =>
        simp only [fetch_data, hf]
        simp only [true_iff]
        intro d hd
        have := List.find?_eq_none.mp hf d hd
        simpa using this
    | some d =>
        have hd : d ∈ st.datasets := List.mem_of_find?_eq_some hf
        have hn : d.name = name := by simpa using List.find?_some hf
        simp only [fetch_data, hf]
        simp only [reduceCtorEq, false_iff]
        intro hall
        exact hall d hd hn
  · intro d hf
    refine ⟨by simp [fetch_data, hf], fun r => ?_⟩
    rw [List.mem_filter]
    simp

/-- Witness for C9 at a concrete known name and a concrete unknown
name. -/
theorem c9_fetch_data_resolution_witness :
    ((fetch_data oneDB "beta").result = none ↔
       ∀ d ∈ oneDB.datasets, d.name ≠ "beta") ∧
    (fetch_data oneDB "alpha").result
      = some (oneDB.sales_data.filter
          (fun r => r.dataset_id = exDataset.id)) :=
  ⟨(c9_fetch_data_resolution oneDB "beta").1,
   ((c9_fetch_data_resolution oneDB "alpha").2 exDataset (by decide)).1⟩

/-- Witness for C10 at a concrete fresh upload and a concrete duplicate
upload. -/
theorem c10_frame_mutation_witness :
    (save_to_database emptyDB "fresh" exFrame "t").frame
      = { exFrame with datasetIdCol := some emptyDB.nextId } ∧
    (save_to_database oneDB "alpha" exFrame "t").frame = exFrame :=
  ⟨(c10_frame_mutation emptyDB "fresh" exFrame "t").1 (by decide),
   (c10_frame_mutation oneDB "alpha" exFrame "t").2
     ⟨exDataset, by decide, by decide⟩⟩

end Sangam
